import Mathlib

/-!
Shallow embedding of the workflow orchestration engine of
`src/workflow/server.py` (class `WorkflowEngine` and the module-level MCP
tools `trigger_workflow` / `get_workflow_execution`).

Python dynamic values are modelled by the inductive `Value`; Python
exceptions by `Except String`; `datetime.now()` by an explicit `PyDateTime`
parameter threaded into the functions that read the clock.  Python's `re`
module, which the engine uses for condition matching and entity
extraction, is modelled by a small backtracking regex engine (`Regex`,
`mtch`) whose semantics on the patterns appearing in the source coincide
with CPython's leftmost, greedy, backtracking search.
-/

namespace Workflow

/-- A Python runtime value, restricted to the shapes that flow through the
workflow engine: strings, ints, booleans, `None`, dicts with string keys
(insertion ordered, modelled as association lists) and lists. -/
inductive Value where
  | vStr  : String → Value
  | vInt  : Int → Value
  | vBool : Bool → Value
  | vNone : Value
  | vDict : List (String × Value) → Value
  | vList : List Value → Value
deriving Repr, Inhabited

/-- Python dict lookup `d.get(k)` on an insertion-ordered dict. -/
def dictGet : List (String × Value) → String → Option Value
  | [], _ => none
  | (k', v) :: rest, k => if k' = k then some v else dictGet rest k

/-- Python dict assignment `d[k] = v`: replaces the value in place when the
key exists (keeping its position), otherwise appends the new entry. -/
def dictSet : List (String × Value) → String → Value → List (String × Value)
  | [], k, v => [(k, v)]
  | (k', v') :: rest, k, v =>
    if k' = k then (k, v) :: rest else (k', v') :: dictSet rest k v

/-- Is `sub` a contiguous sublist of `s`? -/
def infixOf (sub : List Char) : List Char → Bool
  | [] => sub.isPrefixOf []
  | s@(_ :: t) => sub.isPrefixOf s || infixOf sub t

/-- `sub in s` for Python strings: substring containment. -/
def pyInStr (sub s : String) : Bool :=
  infixOf sub.toList s.toList

/-- Python `str.lower()` (ASCII case folding suffices for the engine's
inputs). -/
def pyLower (s : String) : String := String.mk (s.toList.map Char.toLower)

/-- Python `s.startswith(pre)`. -/
def pyStartsWith (s pre : String) : Bool :=
  pre.toList.isPrefixOf s.toList

/-- Python `s.split(sep)` for a one-character separator. -/
def splitChar (sep : Char) : List Char → List (List Char)
  | [] => [[]]
  | c :: rest =>
    if c = sep then [] :: splitChar sep rest
    else
      match splitChar sep rest with
      | h :: t => (c :: h) :: t
      | [] => [[c]]

def pySplit (s : String) (sep : Char) : List String :=
  (splitChar sep s.toList).map String.mk

/-- The name Python's `type(v).__name__` would report, used to reproduce
`AttributeError` messages. -/
def pyTypeName : Value → String
  | .vStr _ => "str"
  | .vInt _ => "int"
  | .vBool _ => "bool"
  | .vNone => "NoneType"
  | .vDict _ => "dict"
  | .vList _ => "list"

mutual
/-- Python `repr` of a value (string escaping is not reproduced: the
engine's values never contain quotes, so `'` delimiters are always used). -/
def pyRepr : Value → String
  | .vStr s => "'" ++ s ++ "'"
  | .vInt n => toString n
  | .vBool b => if b then "True" else "False"
  | .vNone => "None"
  | .vDict es => "\x7b" ++ pyReprEntries es ++ "\x7d"
  | .vList l => "[" ++ pyReprList l ++ "]"

def pyReprEntries : List (String × Value) → String
  | [] => ""
  | [(k, v)] => "'" ++ k ++ "': " ++ pyRepr v
  | (k, v) :: rest => "'" ++ k ++ "': " ++ pyRepr v ++ ", " ++ pyReprEntries rest

def pyReprList : List Value → String
  | [] => ""
  | [v] => pyRepr v
  | v :: rest => pyRepr v ++ ", " ++ pyReprList rest
end

/-- Python `str()` of a value. -/
def pyStr : Value → String
  | .vStr s => s
  | v => pyRepr v

/-- Python `==` between a value and a string literal, as used by the `IN`
condition check (`field_value in allowed_values` where `allowed_values`
holds strings): only a `str` can equal a `str`. -/
def pyEqStr (v : Value) (s : String) : Bool :=
  match v with
  | .vStr t => t = s
  | _ => false

/-! ## Regex engine

Backtracking matcher mirroring CPython `re` semantics (ordered
alternation, greedy repetition, leftmost search) on the constructs the
source's patterns use. -/

/-- Character classes appearing in the source's patterns. -/
inductive CCls where
  | digit       -- `\d`
  | word        -- `\w`
  | space       -- `\s`
  | upperAlnum  -- `[A-Z0-9]`
  | digitComma  -- `[\d,]`
deriving Repr

def CCls.mem : CCls → Char → Bool
  | .digit, c => c.isDigit
  | .word, c => c.isAlphanum || c = '_'
  | .space, c => c = ' ' || c = '\t' || c = '\n' || c = '\r' ||
      c = '\x0b' || c = '\x0c'
  | .upperAlnum, c => ('A' ≤ c && c ≤ 'Z') || c.isDigit
  | .digitComma, c => c.isDigit || c = ','

/-- Regex abstract syntax: literals, classes, `.`, concatenation, ordered
alternation, greedy Kleene star, and one capturing group. -/
inductive Regex where
  | eps
  | lit (c : Char)
  | cls (k : CCls)
  | anyc
  | seq (a b : Regex)
  | alt (a b : Regex)
  | star (r : Regex)
  | grp (r : Regex)
deriving Repr

/-- Character comparison, optionally case-insensitive (`re.IGNORECASE`). -/
def cEq (ci : Bool) (x c : Char) : Bool :=
  if ci then x.toLower = c.toLower else x = c

/-- Continuation type of the matcher: remaining input and captures in,
first overall success out. -/
abbrev MCont := List Char → List (List Char) → Option (List Char × List (List Char))

/-- One layer of the backtracking matcher, structurally recursive on the
regex; `recStar` re-enters the matcher (at lower fuel) for the next greedy
iteration of a star. -/
def mtchCore (ci : Bool) (recStar : Regex → MCont → MCont) :
    Regex → List Char → List (List Char) → MCont →
    Option (List Char × List (List Char))
  | .eps, s, caps, k => k s caps
  | .lit c, s, caps, k =>
    match s with
    | [] => none
    | x :: xs => if cEq ci x c then k xs caps else none
  | .cls kc, s, caps, k =>
    match s with
    | [] => none
    | x :: xs => if kc.mem x then k xs caps else none
  | .anyc, s, caps, k =>
    match s with
    | [] => none
    | x :: xs => if x = '\n' then none else k xs caps
  | .seq a b, s, caps, k =>
    mtchCore ci recStar a s caps (fun s' caps' => mtchCore ci recStar b s' caps' k)
  | .alt a b, s, caps, k =>
    (mtchCore ci recStar a s caps k).orElse
      (fun _ => mtchCore ci recStar b s caps k)
  | .star r, s, caps, k =>
    (mtchCore ci recStar r s caps (fun s' caps' =>
      if s'.length < s.length then recStar (.star r) k s' caps'
      else none)).orElse (fun _ => k s caps)
  | .grp r, s, caps, k =>
    mtchCore ci recStar r s caps (fun s' caps' =>
      k s' (caps' ++ [s.take (s.length - s'.length)]))

/-- Backtracking matcher in continuation-passing style, mirroring CPython
`re` (ordered alternation, greedy star, leftmost-first success).  `fuel`
bounds star unrollings; every unrolling consumes at least one character,
so any `fuel ≥ input length + 1` gives the exact semantics. -/
def mtch (ci : Bool) : Nat → Regex → List Char → List (List Char) → MCont →
    Option (List Char × List (List Char))
  | 0, r, s, caps, k => mtchCore ci (fun _ _ _ _ => none) r s caps k
  | fuel + 1, r, s, caps, k =>
    mtchCore ci (fun r' k' s' caps' => mtch ci fuel r' s' caps' k') r s caps k

/-- Match `r` against a prefix of `s`, returning the unconsumed suffix and
the captures. -/
def matchHere (ci : Bool) (r : Regex) (s : List Char) :
    Option (List Char × List (List Char)) :=
  mtch ci (s.length + 1) r s [] (fun rest caps => some (rest, caps))

/-- `re.search`: does `r` match starting at some position of `s`? -/
def rsearch (ci : Bool) (r : Regex) : List Char → Bool
  | [] => (matchHere ci r []).isSome
  | s@(_ :: t) => (matchHere ci r s).isSome || rsearch ci r t

/-- `re.findall` for patterns with at most one capturing group: scans left
to right, takes the leftmost match, records the group (or the whole match
when there is no group), and resumes after the consumed text. -/
def findallAux (ci : Bool) (r : Regex) : Nat → List Char → List String
  | 0, _ => []
  | _ + 1, [] =>
    match matchHere ci r [] with
    | some (_, caps) =>
      match caps with
      | g :: _ => [String.mk g]
      | [] => [""]
    | none => []
  | fuel + 1, s@(_ :: t) =>
    match matchHere ci r s with
    | some (rest, caps) =>
      let whole := s.take (s.length - rest.length)
      let item := match caps with
        | g :: _ => String.mk g
        | [] => String.mk whole
      -- the source's patterns always consume at least one character
      if rest.length < s.length then item :: findallAux ci r fuel rest
      else item :: findallAux ci r fuel t
    | none => findallAux ci r fuel t

def findall (ci : Bool) (r : Regex) (s : String) : List String :=
  findallAux ci r (s.toList.length + 1) s.toList

/-- Sequence a list of regexes. -/
def rseq (l : List Regex) : Regex := l.foldr .seq .eps

/-- A literal word. -/
def rlits (s : String) : Regex := rseq (s.toList.map .lit)

/-- Greedy `{1,2}`. -/
def rep12 (r : Regex) : Regex := .alt (.seq r r) r

/-- `{4}`. -/
def rep4 (r : Regex) : Regex := rseq [r, r, r, r]

/-- Greedy `+`. -/
def rplus (r : Regex) : Regex := .seq r (.star r)

/-- Greedy `?`. -/
def ropt (r : Regex) : Regex := .alt r .eps

/-! ## Condition matcher (`WorkflowEngine.match_conditions`) -/

/-- Whitespace as Python's `str.strip()` sees it. -/
def isPySpace (c : Char) : Bool := CCls.space.mem c

/-- Python `v.strip()`. -/
def pyStrip (s : String) : String :=
  String.mk ((s.toList.dropWhile isPySpace).reverse.dropWhile isPySpace |>.reverse)

/-- Python `v.strip("'\"")`. -/
def stripQuotes (s : String) : String :=
  let isQ : Char → Bool := fun c => c = '\'' || c = '"'
  String.mk ((s.toList.dropWhile isQ).reverse.dropWhile isQ |>.reverse)

/-- Longest prefix of word characters (`\w+`), with the rest. -/
def takeWord (s : List Char) : List Char × List Char :=
  (s.takeWhile (CCls.word.mem), s.dropWhile (CCls.word.mem))

/-- Longest prefix of whitespace (`\s+`), with the rest. -/
def takeSpaces (s : List Char) : List Char × List Char :=
  (s.takeWhile isPySpace, s.dropWhile isPySpace)

/-- `re.match(r"(\w+)\s+LIKE\s+'([^']+)'", condition)`, returning the two
groups.  Because `\w`, `\s` and the literals are disjoint at each
boundary, the regex's greedy backtracking degenerates to maximal munch,
which this parser implements; trailing input is ignored as `re.match`
only anchors at the start. -/
def parseLike (s : List Char) : Option (String × String) :=
  let (field, rest) := takeWord s
  if field = [] then none else
  let (sp1, rest1) := takeSpaces rest
  if sp1 = [] then none else
  match rest1 with
  | 'L' :: 'I' :: 'K' :: 'E' :: rest2 =>
    let (sp2, rest3) := takeSpaces rest2
    if sp2 = [] then none else
    match rest3 with
    | '\'' :: rest4 =>
      let pat := rest4.takeWhile (fun c => c ≠ '\'')
      if pat = [] then none else
      match rest4.dropWhile (fun c => c ≠ '\'') with
      | '\'' :: _ => some (String.mk field, String.mk pat)
      | _ => none
    | _ => none
  | _ => none

/-- `re.match(r"(\w+)\s+IN\s+\(([^)]+)\)", condition)`. -/
def parseIn (s : List Char) : Option (String × String) :=
  let (field, rest) := takeWord s
  if field = [] then none else
  let (sp1, rest1) := takeSpaces rest
  if sp1 = [] then none else
  match rest1 with
  | 'I' :: 'N' :: rest2 =>
    let (sp2, rest3) := takeSpaces rest2
    if sp2 = [] then none else
    match rest3 with
    | '(' :: rest4 =>
      let vals := rest4.takeWhile (fun c => c ≠ ')')
      if vals = [] then none else
      match rest4.dropWhile (fun c => c ≠ ')') with
      | ')' :: _ => some (String.mk field, String.mk vals)
      | _ => none
    | _ => none
  | _ => none

/-- `pattern.replace('%', '.*').lower()` compiled as a regex: `%` becomes
the greedy `.*`, a literal `.` is the regex wildcard, `*` repeats the
preceding atom, and every other character is a literal.  (The source hands
the replaced pattern to `re.compile`; LIKE patterns in this repository
contain no further regex metacharacters, so this translation agrees with
CPython on them.) -/
def rxAtom (c : Char) : Regex := if c = '.' then .anyc else .lit c

def rxOfChars : List Char → Regex
  | [] => .eps
  | '%' :: rest => .seq (.star .anyc) (rxOfChars rest)
  | c :: '*' :: rest => .seq (.star (rxAtom c)) (rxOfChars rest)
  | c :: rest => .seq (rxAtom c) (rxOfChars rest)

def likeRegex (pat : String) : Regex :=
  rxOfChars (pat.toList.map Char.toLower)

/-- The message `str()` of the `AttributeError` raised when `re.match`
returns `None` and `.groups()` is called on it. -/
def noneGroupsErr : String :=
  "'NoneType' object has no attribute 'groups'"

/-- The body of `match_conditions`' loop for one condition string
(source lines 92–107): the `LIKE` branch, the `IN` branch, or — for a
condition containing neither substring — no check at all (modelled as a
vacuous `true`). -/
def evalCondition (condition : String) (data : List (String × Value)) :
    Except String Bool :=
  if pyInStr "LIKE" condition then
    match parseLike condition.toList with
    | none => .error noneGroupsErr
    | some (field, pattern) =>
      let fieldValue := pyLower (pyStr ((dictGet data field).getD (.vStr "")))
      .ok (rsearch false (likeRegex pattern) fieldValue.toList)
  else if pyInStr "IN" condition then
    match parseIn condition.toList with
    | none => .error noneGroupsErr
    | some (field, values) =>
      let fieldValue := (dictGet data field).getD .vNone
      let allowed := (pySplit values ',').map (fun v => stripQuotes (pyStrip v))
      .ok (allowed.any (pyEqStr fieldValue))
  else
    .ok true

/-- `WorkflowEngine.match_conditions` (source lines 90–108): evaluate the
conditions in order, returning `False` at the first non-matching one,
propagating any exception, and `True` when all pass. -/
def matchConditions (conditions : List String) (data : List (String × Value)) :
    Except String Bool :=
  match conditions with
  | [] => .ok true
  | c :: rest =>
    match evalCondition c data with
    | .error e => .error e
    | .ok false => .ok false
    | .ok true => matchConditions rest data

/-! ## Parameter resolver (`WorkflowEngine.resolve_parameters`) -/

/-- The walk `for part in parts: resolved_value = resolved_value.get(part, "")`
(source lines 334–335).  Each `.get` succeeds only on a dict; on any other
value Python raises `AttributeError`. -/
def walkPath : List String → Value → Except String Value
  | [], v => .ok v
  | p :: ps, .vDict es => walkPath ps ((dictGet es p).getD (.vStr ""))
  | _ :: _, v =>
    .error ("'" ++ pyTypeName v ++ "' object has no attribute 'get'")

/-- Resolution of one parameter value (source lines 327–340). -/
def resolveValue (ctx : List (String × Value)) (v : Value) :
    Except String Value :=
  match v with
  | .vStr s =>
    if pyStartsWith s "$\x7b" then
      let varName := String.mk ((s.toList.drop 2).dropLast)  -- value[2:-1]
      if varName.toList.contains '.' then
        walkPath (pySplit varName '.') (.vDict ctx)
      else
        .ok ((dictGet ctx varName).getD (.vStr s))
    else .ok (.vStr s)
  | other => .ok other

/-- `WorkflowEngine.resolve_parameters` (source lines 323–341). -/
def resolveParameters (params : List (String × Value))
    (ctx : List (String × Value)) : Except String (List (String × Value)) :=
  match params with
  | [] => .ok []
  | (k, v) :: rest => do
    let rv ← resolveValue ctx v
    let rs ← resolveParameters rest ctx
    .ok ((k, rv) :: rs)

/-! ## Entity extractors (`extract_dates` … `extract_deadlines`) -/

def rDigit : Regex := .cls .digit

/-- `r'\d{1,2}/\d{1,2}/\d{4}'` -/
def patSlashDate : Regex :=
  rseq [rep12 rDigit, .lit '/', rep12 rDigit, .lit '/', rep4 rDigit]

/-- `r'\d{4}-\d{1,2}-\d{1,2}'` -/
def patIsoDate : Regex :=
  rseq [rep4 rDigit, .lit '-', rep12 rDigit, .lit '-', rep12 rDigit]

/-- `r'\d{1,2}-\d{1,2}-\d{4}'` -/
def patDashDate : Regex :=
  rseq [rep12 rDigit, .lit '-', rep12 rDigit, .lit '-', rep4 rDigit]

/-- `WorkflowEngine.extract_dates` (source lines 282–293). -/
def extract_dates (content : String) : List String :=
  findall false patSlashDate content ++
  findall false patIsoDate content ++
  findall false patDashDate content

/-- `r'\$[\d,]+\.?\d*'` -/
def patAmount : Regex :=
  rseq [.lit '$', rplus (.cls .digitComma), ropt (.lit '.'), .star rDigit]

/-- `WorkflowEngine.extract_amounts` (source lines 295–299). -/
def extract_amounts (content : String) : List String :=
  findall false patAmount content

/-- `r'License:\s*([A-Z0-9]+)'` -/
def patLicense : Regex :=
  .seq (rlits "License:") (.seq (.star (.cls .space)) (.grp (rplus (.cls .upperAlnum))))

/-- `r'VIN:\s*([A-Z0-9]+)'` -/
def patVin : Regex :=
  .seq (rlits "VIN:") (.seq (.star (.cls .space)) (.grp (rplus (.cls .upperAlnum))))

/-- `r'\d{4}\s+\w+'` (Year Make) -/
def patYearMake : Regex :=
  rseq [rep4 rDigit, rplus (.cls .space), rplus (.cls .word)]

/-- `WorkflowEngine.extract_vehicles` (source lines 301–312). -/
def extract_vehicles (content : String) : List String :=
  findall false patLicense content ++
  findall false patVin content ++
  findall false patYearMake content

/-- `r'(?:by|before|deadline|due)\s+(\d{1,2}/\d{1,2}/\d{4})'` -/
def patDeadline : Regex :=
  .seq (.alt (rlits "by") (.alt (rlits "before") (.alt (rlits "deadline") (rlits "due"))))
    (.seq (rplus (.cls .space)) (.grp patSlashDate))

/-- `WorkflowEngine.extract_deadlines` (source lines 314–321): the
IGNORECASE deadline pattern, then every slash-date in the content. -/
def extract_deadlines (content : String) : List String :=
  findall true patDeadline content ++
  findall false (.grp patSlashDate) content

/-! ## Tool dispatcher (`execute_tool` and the per-namespace executors) -/

/-- The hardcoded summary returned by `ai_summarize` (source line 217). -/
def dmvSummary : String :=
  "DMV notice regarding vehicle registration suspension for 2004 Volvo. Insurance proof required by 03/27/2025 to avoid suspension. $14 fee for reinstatement."

/-- Python iteration `for keyword in keywords`: lists yield elements,
strings yield their characters (as 1-char strings), dicts yield their
keys; other values raise `TypeError`. -/
def iterElems : Value → Except String (List Value)
  | .vList l => .ok l
  | .vStr s => .ok (s.toList.map (fun c => .vStr (String.mk [c])))
  | .vDict es => .ok (es.map (fun kv => .vStr kv.1))
  | v => .error ("'" ++ pyTypeName v ++ "' object is not iterable")

/-- The keyword-counting loop of `ai_classify_urgency` (source lines
238–241): each keyword that occurs in the lowered content adds one. -/
def urgencyScore (content : String) : List Value → Except String Int
  | [] => .ok 0
  | .vStr k :: rest => do
    let n ← urgencyScore content rest
    .ok (n + if pyInStr (pyLower k) (pyLower content) then 1 else 0)
  | v :: _ =>
    .error ("'" ++ pyTypeName v ++ "' object has no attribute 'lower'")

/-- `WorkflowEngine.execute_ai_tool` (source lines 197–253).  The context
argument is accepted but unused, as in the source. -/
def execute_ai_tool (tool_name : String) (params : List (String × Value))
    (_ctx : List (String × Value)) : Except String Value :=
  if tool_name = "ai_summarize" then
    -- content / max_length are read into a prompt string, but the summary
    -- returned is the hardcoded placeholder
    .ok (.vDict [("summary", .vStr dmvSummary)])
  else if tool_name = "ai_extract_entities" then
    match (dictGet params "content").getD (.vStr "") with
    | .vStr content =>
      let entityTypes := (dictGet params "types").getD
        (.vList [.vStr "dates", .vStr "amounts", .vStr "companies"])
      let entities : List (String × Value) :=
        [("dates", .vList ((extract_dates content).map .vStr)),
         ("amounts", .vList ((extract_amounts content).map .vStr)),
         ("vehicles", .vList ((extract_vehicles content).map .vStr)),
         ("deadlines", .vList ((extract_deadlines content).map .vStr))]
      do
        let tys ← iterElems entityTypes
        .ok (.vDict [("entities",
          .vDict (entities.filter (fun kv => tys.any (pyEqStr · kv.1))))])
    | v => .error ("expected string, got " ++ pyTypeName v)
  else if tool_name = "ai_classify_urgency" then
    match (dictGet params "content").getD (.vStr "") with
    | .vStr content => do
      let kws ← iterElems ((dictGet params "keywords").getD (.vList []))
      let score ← urgencyScore content kws
      let level : String :=
        if 2 ≤ score then "urgent" else if 1 ≤ score then "high" else "normal"
      .ok (.vDict [("urgency_level", .vStr level), ("urgency_score", .vInt score)])
    | v => .error ("'" ++ pyTypeName v ++ "' object has no attribute 'lower'")
  else
    .error ("Unknown AI tool: " ++ tool_name)

/-- `WorkflowEngine.execute_crm_tool` (source lines 255–264). -/
def execute_crm_tool (tool_name : String) (params : List (String × Value)) :
    Except String Value :=
  if tool_name = "crm_update_communication" then
    .ok (.vDict [("success", .vBool true),
                 ("message", .vStr "Communication updated"),
                 ("communication_id", (dictGet params "communication_id").getD .vNone)])
  else if tool_name = "crm_create_task" then
    .ok (.vDict [("task_id", .vInt 123), ("success", .vBool true),
                 ("title", (dictGet params "title").getD (.vStr "New Task"))])
  else
    .error ("Unknown CRM tool: " ++ tool_name)

/-- `WorkflowEngine.execute_vision_tool` (source lines 266–272). -/
def execute_vision_tool (tool_name : String) : Except String Value :=
  if tool_name = "vision_extract_invoice" then
    .ok (.vDict [("extracted_data", .vDict []), ("success", .vBool true)])
  else
    .error ("Unknown vision tool: " ++ tool_name)

/-- `WorkflowEngine.execute_quickbooks_tool` (source lines 274–280). -/
def execute_quickbooks_tool (tool_name : String) : Except String Value :=
  if tool_name = "quickbooks_create_vendor" then
    .ok (.vDict [("vendor_id", .vInt 456), ("success", .vBool true)])
  else
    .error ("Unknown QuickBooks tool: " ++ tool_name)

/-- `WorkflowEngine.execute_tool` (source lines 177–195): resolve the
parameters against the context, then route on the tool-name prefix;
an unrecognized name raises `ValueError("Unknown tool: …")`. -/
def execute_tool (tool_name : String) (params : List (String × Value))
    (ctx : List (String × Value)) : Except String Value := do
  let resolved ← resolveParameters params ctx
  if pyStartsWith tool_name "ai_" then
    execute_ai_tool tool_name resolved ctx
  else if pyStartsWith tool_name "crm_" then
    execute_crm_tool tool_name resolved
  else if pyStartsWith tool_name "vision_" then
    execute_vision_tool tool_name
  else if pyStartsWith tool_name "quickbooks_" then
    execute_quickbooks_tool tool_name
  else if tool_name = "workflow_log" then
    .ok (.vDict [("logged", .vBool true),
                 ("message", .vStr "Workflow completion logged")])
  else
    .error ("Unknown tool: " ++ tool_name)

/-! ## Data model (`WorkflowResult`, `WorkflowExecution`, definitions) -/

/-- One step of a workflow definition (a `steps` entry of the YAML file):
`name`, `tool`, `params` mapping, optional `conditions` list. -/
structure Step where
  name : String
  tool : String
  params : List (String × Value)
  conditions : List String
deriving Repr

/-- A loaded workflow definition (`self.workflows[name]`), reduced to the
fields the engine reads. -/
structure WorkflowDef where
  name : String
  steps : List Step
deriving Repr

/-- The `WorkflowResult` dataclass (source lines 28–39).  A failed step
stores `result = None`, modelled by `Value.vNone`. -/
structure WorkflowResult where
  success : Bool
  step_name : String
  tool_name : String
  result : Value
  error : Option String
  timestamp : String
deriving Repr

/-- The `WorkflowExecution` dataclass (source lines 41–50). -/
structure WorkflowExecution where
  workflow_name : String
  trigger_event : String
  trigger_data : List (String × Value)
  execution_id : String
  status : String
  steps_completed : List WorkflowResult
  started_at : String
  completed_at : Option String
deriving Repr

/-- `datetime.now()` snapshots, second resolution (the formats the engine
uses keep no finer precision in the execution id). -/
structure PyDateTime where
  year : Nat
  month : Nat
  day : Nat
  hour : Nat
  minute : Nat
  second : Nat
deriving Repr, DecidableEq

/-- `%02d`. -/
def pad2 (n : Nat) : String := if n < 10 then "0" ++ Nat.repr n else Nat.repr n

/-- `%04d` / `%Y` (zero-padded to four digits). -/
def pad4 (n : Nat) : String :=
  if n < 10 then "000" ++ Nat.repr n
  else if n < 100 then "00" ++ Nat.repr n
  else if n < 1000 then "0" ++ Nat.repr n
  else Nat.repr n

/-- `datetime.strftime('%Y%m%d_%H%M%S')`. -/
def strftimeId (t : PyDateTime) : String :=
  pad4 t.year ++ pad2 t.month ++ pad2 t.day ++ "_" ++
  pad2 t.hour ++ pad2 t.minute ++ pad2 t.second

/-- `datetime.isoformat()` at second resolution. -/
def isoformat (t : PyDateTime) : String :=
  pad4 t.year ++ "-" ++ pad2 t.month ++ "-" ++ pad2 t.day ++ "T" ++
  pad2 t.hour ++ ":" ++ pad2 t.minute ++ ":" ++ pad2 t.second

/-- The execution id generated at run start (source line 112):
`f"{workflow_name}_{datetime.now().strftime('%Y%m%d_%H%M%S')}"`. -/
def executionId (workflow_name : String) (now : PyDateTime) : String :=
  workflow_name ++ "_" ++ strftimeId now

/-! ## History store and engine state -/

/-- One row of the `workflow_executions` table.  `json.dumps`/`json.loads`
of the Python standard library are mutually inverse on the engine's
JSON-representable values, so the serialized text columns are modelled by
the `Value` they encode; `created_at` is filled by SQLite and unused. -/
structure DbRow where
  execution_id : String
  workflow_name : String
  trigger_event : String
  trigger_data : Value
  status : String
  started_at : String
  completed_at : Option String
  steps_completed : Value
  created_at : String
deriving Repr

/-- Association-list update keyed by a string (insert-or-replace). -/
def setKey {α : Type} : List (String × α) → String → α → List (String × α)
  | [], k, v => [(k, v)]
  | (k', v') :: rest, k, v =>
    if k' = k then (k, v) :: rest else (k', v') :: setKey rest k v

/-- Association-list lookup. -/
def getKey {α : Type} : List (String × α) → String → Option α
  | [], _ => none
  | (k', v) :: rest, k => if k' = k then some v else getKey rest k

/-- The engine's mutable state: the in-memory `self.executions` table and
the SQLite `workflow_executions` table. -/
structure EngineState where
  executions : List (String × WorkflowExecution)
  db : List (String × DbRow)

def EngineState.empty : EngineState := ⟨[], []⟩

/-- `asdict(step)` as serialized into the `steps_completed` column. -/
def asdictStep (r : WorkflowResult) : Value :=
  .vDict [("success", .vBool r.success),
          ("step_name", .vStr r.step_name),
          ("tool_name", .vStr r.tool_name),
          ("result", r.result),
          ("error", match r.error with | some e => .vStr e | none => .vNone),
          ("timestamp", .vStr r.timestamp)]

/-- `WorkflowEngine.save_execution` (source lines 343–360): insert-or-
replace the row keyed by execution id. -/
def save_execution (st : EngineState) (e : WorkflowExecution) : EngineState :=
  let row : DbRow :=
    { execution_id := e.execution_id
      workflow_name := e.workflow_name
      trigger_event := e.trigger_event
      trigger_data := .vDict e.trigger_data
      status := e.status
      started_at := e.started_at
      completed_at := e.completed_at
      steps_completed := .vList (e.steps_completed.map asdictStep)
      created_at := "" }
  { st with db := setKey st.db e.execution_id row }

/-! ## Workflow executor (`execute_workflow`) -/

/-- The fresh per-run context (source line 128). -/
def initCtx (trigger_data : List (String × Value)) : List (String × Value) :=
  [("trigger_data", .vDict trigger_data), ("execution_results", .vDict [])]

/-- `context["execution_results"][step_name] = result` (source line 152).
By construction the key always maps to a dict; a non-dict is left
untouched (unreachable in the engine). -/
def ctxAddResult (ctx : List (String × Value)) (step_name : String)
    (result : Value) : List (String × Value) :=
  ctx.map (fun kv =>
    if kv.1 = "execution_results" then
      match kv.2 with
      | .vDict es => (kv.1, Value.vDict (dictSet es step_name result))
      | v => (kv.1, v)
    else kv)

/-- The step loop of `execute_workflow` (source lines 130–163), returning
the appended step results, the final context, and — when
`match_conditions` raises outside the per-step `try` — the escaping
exception message that fails the whole run.  A tool failure inside the
`try` is recorded as a failed `WorkflowResult` and the loop continues. -/
def runSteps (now : PyDateTime) :
    List Step → List (String × Value) →
    List WorkflowResult × List (String × Value) × Option String
  | [], ctx => ([], ctx, none)
  | step :: rest, ctx =>
    -- `if conditions and not self.match_conditions(conditions, context)`:
    -- an empty condition list short-circuits in the source without calling
    -- match_conditions; since `matchConditions [] ctx = .ok true` with no
    -- side effects, the guard below is equivalent.
    match matchConditions step.conditions ctx with
    | .error e => ([], ctx, some e)     -- raised outside the per-step try
    | .ok false => runSteps now rest ctx  -- skipped: no StepResult
    | .ok true =>
      match execute_tool step.tool step.params ctx with
      | .ok result =>
        let stepResult : WorkflowResult :=
          { success := true, step_name := step.name, tool_name := step.tool
            result := result, error := none, timestamp := isoformat now }
        let r := runSteps now rest (ctxAddResult ctx step.name result)
        (stepResult :: r.1, r.2)
      | .error e =>
        let stepResult : WorkflowResult :=
          { success := false, step_name := step.name, tool_name := step.tool
            result := .vNone, error := some e, timestamp := isoformat now }
        let r := runSteps now rest ctx
        (stepResult :: r.1, r.2)

/-- `WorkflowEngine.execute_workflow` (source lines 110–175).  All the
run's `datetime.now()` reads are modelled by the single instant `now`
(the claims under verification do not distinguish intra-run clock
advancement).  A missing workflow name raises `KeyError` inside the outer
`try`, producing a `failed` run with no steps. -/
def execute_workflow (workflows : List (String × WorkflowDef))
    (st : EngineState) (workflow_name trigger_event : String)
    (trigger_data : List (String × Value)) (now : PyDateTime) :
    WorkflowExecution × EngineState :=
  let eid := executionId workflow_name now
  let e0 : WorkflowExecution :=
    { workflow_name := workflow_name
      trigger_event := trigger_event
      trigger_data := trigger_data
      execution_id := eid
      status := "running"
      steps_completed := []
      started_at := isoformat now
      completed_at := none }
  let e : WorkflowExecution :=
    match getKey workflows workflow_name with
    | none =>  -- KeyError caught by the outer except: status = "failed"
      { e0 with status := "failed", completed_at := some (isoformat now) }
    | some wf =>
      let (results, _, engineErr) := runSteps now wf.steps (initCtx trigger_data)
      match engineErr with
      | some _ =>
        { e0 with status := "failed", steps_completed := results
                  completed_at := some (isoformat now) }
      | none =>
        { e0 with status := "completed", steps_completed := results
                  completed_at := some (isoformat now) }
  let st' := { st with executions := setKey st.executions eid e }
  (e, save_execution st' e)

/-! ## MCP tool layer -/

/-- The JSON object returned by `trigger_workflow` (source lines 367–402):
either the success shape (with execution id, status and step count) or
the error shape (with the exception message). -/
structure TriggerResult where
  success : Bool
  execution_id : Option String
  status : Option String
  steps_completed : Option Nat
  workflow_name : String
  error : Option String
deriving Repr

/-- `trigger_workflow`: runs the workflow and reports the summary.  The
engine catches every per-run exception internally, so the error shape is
unreachable in this model (it would require `asyncio.run` or the
persistence layer itself to fail). -/
def trigger_workflow (workflows : List (String × WorkflowDef))
    (st : EngineState) (workflow_name trigger_event : String)
    (trigger_data : List (String × Value)) (now : PyDateTime) :
    TriggerResult × EngineState :=
  let (e, st') := execute_workflow workflows st workflow_name trigger_event
    trigger_data now
  ({ success := true
     execution_id := some e.execution_id
     status := some e.status
     steps_completed := some e.steps_completed.length
     workflow_name := workflow_name
     error := none }, st')

/-- `get_workflow_execution` (source lines 428–467), returning the JSON
value the tool serializes: the in-memory shape, the database-row shape, or
the not-found error object. -/
def get_workflow_execution (st : EngineState) (execution_id : String) : Value :=
  match getKey st.executions execution_id with
  | some e =>
    .vDict [("execution_id", .vStr e.execution_id),
            ("workflow_name", .vStr e.workflow_name),
            ("status", .vStr e.status),
            ("started_at", .vStr e.started_at),
            ("completed_at", match e.completed_at with
              | some c => .vStr c | none => .vNone),
            ("steps", .vList (e.steps_completed.map asdictStep))]
  | none =>
    match getKey st.db execution_id with
    | some row =>
      .vDict [("execution_id", .vStr row.execution_id),
              ("workflow_name", .vStr row.workflow_name),
              ("trigger_event", .vStr row.trigger_event),
              ("trigger_data", row.trigger_data),
              ("status", .vStr row.status),
              ("started_at", .vStr row.started_at),
              ("completed_at", match row.completed_at with
                | some c => .vStr c | none => .vNone),
              ("steps_completed", row.steps_completed),
              ("created_at", .vStr row.created_at)]
    | none => .vDict [("error", .vStr "Execution not found")]

/-! ## Helper lemmas -/

theorem getKey_setKey {α : Type} (l : List (String × α)) (k : String) (v : α) :
    getKey (setKey l k v) k = some v := by
  induction l with
  | nil => simp [setKey, getKey]
  | cons hd tl ih =>
    by_cases h : hd.1 = k
    · simp [setKey, getKey, h]
    · simp [setKey, getKey, h, ih]

theorem resolveParameters_single (k : String) (v : Value)
    (ctx : List (String × Value)) :
    resolveParameters [(k, v)] ctx =
      (resolveValue ctx v).map (fun rv => [(k, rv)]) := by
  cases h : resolveValue ctx v <;>
    simp [resolveParameters, h, Except.map, bind, Except.bind]

theorem walkPath_cons (p : String) (ps : List String)
    (es : List (String × Value)) :
    walkPath (p :: ps) (.vDict es) =
      walkPath ps ((dictGet es p).getD (.vStr "")) := rfl

/-! ## Claims -/

/-- C10: `resolve_parameters` treats any string beginning with `"${"` as a
placeholder even without a closing `"}"`: the first two and the last
character are stripped unconditionally, so `"${foo"` is looked up under
the key `"fo"` (with the literal string as the `get` default) rather than
passed through; only the `startswith("${")` check gates placeholder
handling, so any other string passes through unchanged. -/
theorem c10_unterminated_placeholder_lookup :
    (∀ (ctx : List (String × Value)) (k : String),
      resolveParameters [(k, .vStr "$\x7bfoo")] ctx =
        .ok [(k, (dictGet ctx "fo").getD (.vStr "$\x7bfoo"))]) ∧
    (∀ (ctx : List (String × Value)) (k s : String),
      pyStartsWith s "$\x7b" = false →
      resolveParameters [(k, .vStr s)] ctx = .ok [(k, .vStr s)]) := by
  constructor
  · intro ctx k
    rw [resolveParameters_single]
    have h : resolveValue ctx (.vStr "$\x7bfoo") =
        .ok ((dictGet ctx "fo").getD (.vStr "$\x7bfoo")) := rfl
    rw [h]
    rfl
  · intro ctx k s hs
    rw [resolveParameters_single]
    simp [resolveValue, hs, Except.map]

/-- C10 witness: with `"fo" ↦ "bar"` in the context, `"${foo"` resolves to
`"bar"`, and a plain literal passes through unchanged. -/
theorem c10_witness :
    resolveParameters [("k", .vStr "$\x7bfoo")] [("fo", .vStr "bar")] =
      .ok [("k", .vStr "bar")] ∧
    resolveParameters [("k", .vStr "plain")] [("fo", .vStr "bar")] =
      .ok [("k", .vStr "plain")] := by
  refine ⟨?_, c10_unterminated_placeholder_lookup.2 _ "k" "plain" (by decide)⟩
  have h := c10_unterminated_placeholder_lookup.1 [("fo", .vStr "bar")] "k"
  simpa [dictGet] using h

/-- C2 counterexample: the dotted path `"${a.b}"` with `"a"` missing from
the context makes the walk reach the string `""`, whose `.get` raises
`AttributeError` — resolution does not yield an empty string and does
raise, contradicting the claim. -/
theorem c2_counterexample :
    resolveParameters [("k", .vStr "$\x7ba.b\x7d")] [] =
      .error "'str' object has no attribute 'get'" := rfl

/-- C2 (amended): for a dotted placeholder path, a missing *final* segment
resolves to the empty string without error (each earlier segment having
resolved to a dict), but a missing *non-final* segment makes the walk land
on the string `""` and the next `.get` raises `AttributeError`; values that
are not strings starting with `"${"` pass through unchanged. -/
theorem c2_lenient_lookup_final_segment_only :
    (∀ (ctx td : List (String × Value)) (k : String),
      dictGet ctx "trigger_data" = some (.vDict td) →
      dictGet td "nonexistent" = none →
      resolveParameters [(k, .vStr "$\x7btrigger_data.nonexistent\x7d")] ctx =
        .ok [(k, .vStr "")]) ∧
    (∀ (ctx : List (String × Value)) (k : String),
      dictGet ctx "missing" = none →
      resolveParameters [(k, .vStr "$\x7bmissing.x\x7d")] ctx =
        .error "'str' object has no attribute 'get'") ∧
    (∀ (ctx : List (String × Value)) (k : String) (v : Value),
      (∀ s, v = .vStr s → pyStartsWith s "$\x7b" = false) →
      resolveParameters [(k, v)] ctx = .ok [(k, v)]) := by
  refine ⟨?_, ?_, ?_⟩
  · intro ctx td k h1 h2
    rw [resolveParameters_single]
    have hv : resolveValue ctx (.vStr "$\x7btrigger_data.nonexistent\x7d") =
        walkPath ["trigger_data", "nonexistent"] (.vDict ctx) := rfl
    rw [hv, walkPath_cons, h1]
    simp only [Option.getD_some]
    rw [walkPath_cons, h2]
    rfl
  · intro ctx k h
    rw [resolveParameters_single]
    have hv : resolveValue ctx (.vStr "$\x7bmissing.x\x7d") =
        walkPath ["missing", "x"] (.vDict ctx) := rfl
    rw [hv, walkPath_cons, h]
    rfl
  · intro ctx k v hv
    rw [resolveParameters_single]
    cases v with
    | vStr s => simp [resolveValue, hv s rfl, Except.map]
    | vInt n => rfl
    | vBool b => rfl
    | vNone => rfl
    | vDict es => rfl
    | vList l => rfl

/-- C2 witness: with a `trigger_data` dict lacking `nonexistent`, the
spec's example path resolves to `""`; with `missing` absent at top level,
`"${missing.x}"` raises; a non-placeholder passes through. -/
theorem c2_witness :
    resolveParameters [("k", .vStr "$\x7btrigger_data.nonexistent\x7d")]
        [("trigger_data", .vDict [("x", .vStr "1")])] = .ok [("k", .vStr "")] ∧
    resolveParameters [("k", .vStr "$\x7bmissing.x\x7d")]
        [("trigger_data", .vDict [])] =
      .error "'str' object has no attribute 'get'" ∧
    resolveParameters [("k", .vStr "literal")] [] = .ok [("k", .vStr "literal")] :=
  ⟨c2_lenient_lookup_final_segment_only.1 _ [("x", .vStr "1")] "k" rfl rfl,
   c2_lenient_lookup_final_segment_only.2.1 _ "k" rfl,
   c2_lenient_lookup_final_segment_only.2.2 _ "k" _
     (fun s hs => by cases hs; decide)⟩

/-- C3 counterexample: the condition `"STATUS = 'open'"` matches neither
grammar (it contains neither `"LIKE"` nor `"IN"`), yet `match_conditions`
silently treats it as satisfied and returns `True` instead of raising. -/
theorem c3_counterexample :
    matchConditions ["STATUS = 'open'"] [("STATUS", .vStr "open")] =
      .ok true := rfl

/-- C3 (amended): a condition containing neither `"LIKE"` nor `"IN"` as a
substring is silently skipped (treated as satisfied), not an error; a
condition containing `"LIKE"` (resp. `"IN"`) that fails the corresponding
grammar raises — but only with the unhelpful
`AttributeError: 'NoneType' object has no attribute 'groups'`, not a clear
diagnostic. -/
theorem c3_malformed_condition_handling :
    (∀ (c : String) (data : List (String × Value)) (rest : List String),
      pyInStr "LIKE" c = false → pyInStr "IN" c = false →
      matchConditions (c :: rest) data = matchConditions rest data) ∧
    (∀ (c : String) (data : List (String × Value)) (rest : List String),
      pyInStr "LIKE" c = true → parseLike c.toList = none →
      matchConditions (c :: rest) data = .error noneGroupsErr) ∧
    (∀ (c : String) (data : List (String × Value)) (rest : List String),
      pyInStr "LIKE" c = false → pyInStr "IN" c = true →
      parseIn c.toList = none →
      matchConditions (c :: rest) data = .error noneGroupsErr) := by
  refine ⟨?_, ?_, ?_⟩ <;> intro c data rest <;> intros <;>
    simp [matchConditions, evalCondition, String.toList, *] at *

/-- C3 witness: `"STATUS = 'open'"` is skipped; the LIKE-containing but
malformed `"xLIKEy"` raises the AttributeError. -/
theorem c3_witness :
    matchConditions ["STATUS = 'open'"] [] = matchConditions [] [] ∧
    matchConditions ["xLIKEy"] [] = .error noneGroupsErr :=
  ⟨c3_malformed_condition_handling.1 "STATUS = 'open'" [] [] (by decide) (by decide),
   c3_malformed_condition_handling.2.1 "xLIKEy" [] [] (by decide) rfl⟩

/-- C4 counterexample: triggering an unknown workflow returns the
success-shaped JSON (`success = True`) with no error message, not the
claimed failure result with a descriptive message. -/
theorem c4_counterexample :
    (trigger_workflow [] EngineState.empty "missing" "evt" []
        ⟨2025, 3, 27, 12, 0, 0⟩).1.success = true ∧
    (trigger_workflow [] EngineState.empty "missing" "evt" []
        ⟨2025, 3, 27, 12, 0, 0⟩).1.error = none :=
  ⟨rfl, rfl⟩

/-- C4 (amended): an unknown workflow name makes the run fail immediately
with zero steps attempted (status `"failed"`, empty step list), but the
caller of `trigger_workflow` receives a success-shaped result
(`success = True`, status `"failed"`, step count 0, no error message); the
descriptive `KeyError` text is only printed, never returned. -/
theorem c4_missing_workflow_failed_zero_steps :
    ∀ (workflows : List (String × WorkflowDef)) (st : EngineState)
      (name evt : String) (data : List (String × Value)) (t : PyDateTime),
      getKey workflows name = none →
      (execute_workflow workflows st name evt data t).1.status = "failed" ∧
      (execute_workflow workflows st name evt data t).1.steps_completed = [] ∧
      (trigger_workflow workflows st name evt data t).1 =
        { success := true
          execution_id := some (executionId name t)
          status := some "failed"
          steps_completed := some 0
          workflow_name := name
          error := none } := by
  intro workflows st name evt data t h
  refine ⟨?_, ?_, ?_⟩ <;> simp [execute_workflow, trigger_workflow, h]

/-- C4 witness: the amended statement at a concrete missing name. -/
theorem c4_witness :
    (execute_workflow [] EngineState.empty "missing" "evt" []
        ⟨2025, 3, 27, 12, 0, 0⟩).1.status = "failed" ∧
    (execute_workflow [] EngineState.empty "missing" "evt" []
        ⟨2025, 3, 27, 12, 0, 0⟩).1.steps_completed = [] ∧
    (trigger_workflow [] EngineState.empty "missing" "evt" []
        ⟨2025, 3, 27, 12, 0, 0⟩).1 =
      { success := true
        execution_id := some (executionId "missing" ⟨2025, 3, 27, 12, 0, 0⟩)
        status := some "failed"
        steps_completed := some 0
        workflow_name := "missing"
        error := none } :=
  c4_missing_workflow_failed_zero_steps [] EngineState.empty "missing" "evt"
    [] ⟨2025, 3, 27, 12, 0, 0⟩ rfl

theorem urgencyScore_strings (content : String) (kws : List String) :
    urgencyScore content (kws.map .vStr) =
      .ok ((kws.filter
        (fun k => pyInStr (pyLower k) (pyLower content))).length : Int) := by
  induction kws with
  | nil => rfl
  | cons k rest ih =>
    simp only [List.map_cons, urgencyScore, ih, bind, Except.bind, List.filter]
    by_cases h : pyInStr (pyLower k) (pyLower content) <;> simp [h]

/-- C6: `ai_classify_urgency` counts how many keywords occur
case-insensitively in the content and maps 0 hits to `"normal"`, exactly 1
hit to `"high"`, and 2 or more hits to `"urgent"`; in particular
`"URGENT: payment overdue"` with keywords `["urgent", "overdue"]`
classifies as `"urgent"` with score 2. -/
theorem c6_classify_urgency_tiers :
    (∀ (ctx : List (String × Value)) (content : String) (kws : List String),
      execute_ai_tool "ai_classify_urgency"
        [("content", .vStr content), ("keywords", .vList (kws.map .vStr))] ctx =
      .ok (.vDict
        [("urgency_level", .vStr
          (if 2 ≤ ((kws.filter
              (fun k => pyInStr (pyLower k) (pyLower content))).length : Int)
           then "urgent"
           else if 1 ≤ ((kws.filter
              (fun k => pyInStr (pyLower k) (pyLower content))).length : Int)
           then "high" else "normal")),
         ("urgency_score", .vInt ((kws.filter
            (fun k => pyInStr (pyLower k) (pyLower content))).length : Int))])) ∧
    execute_ai_tool "ai_classify_urgency"
      [("content", .vStr "URGENT: payment overdue"),
       ("keywords", .vList [.vStr "urgent", .vStr "overdue"])] [] =
    .ok (.vDict [("urgency_level", .vStr "urgent"),
                 ("urgency_score", .vInt 2)]) := by
  constructor
  · intro ctx content kws
    have h : execute_ai_tool "ai_classify_urgency"
        [("content", .vStr content), ("keywords", .vList (kws.map .vStr))] ctx =
        Except.bind (urgencyScore content (kws.map .vStr)) (fun score =>
          .ok (.vDict [("urgency_level", .vStr
              (if 2 ≤ score then "urgent"
               else if 1 ≤ score then "high" else "normal")),
            ("urgency_score", .vInt score)])) := rfl
    rw [h, urgencyScore_strings]
    rfl
  · rfl

/-- The boolean a well-formed condition evaluates to (`false` for a raising
condition, which the conjunction theorem below excludes by hypothesis). -/
def evalCondBool (c : String) (data : List (String × Value)) : Bool :=
  match evalCondition c data with
  | .ok b => b
  | .error _ => false

/-- C5: `match_conditions` returns the conjunction of its predicates: the
empty list yields true; `FIELD LIKE '%invoice%'` holds against
`{"FIELD": "Monthly Invoice #123"}` (case-insensitive `%` wildcard);
`STATUS IN ('open', 'pending')` fails against `{"STATUS": "closed"}`
(quote-stripped literal membership); and for any list of well-formed
predicates the result is the AND of the individual evaluations. -/
theorem c5_condition_matcher_semantics :
    (∀ data : List (String × Value), matchConditions [] data = .ok true) ∧
    matchConditions ["FIELD LIKE '%invoice%'"]
      [("FIELD", .vStr "Monthly Invoice #123")] = .ok true ∧
    matchConditions ["STATUS IN ('open', 'pending')"]
      [("STATUS", .vStr "closed")] = .ok false ∧
    (∀ (conditions : List String) (data : List (String × Value)),
      (∀ c ∈ conditions, ∃ b, evalCondition c data = .ok b) →
      matchConditions conditions data =
        .ok (conditions.all (fun c => evalCondBool c data))) := by
  refine ⟨fun _ => rfl, rfl, rfl, ?_⟩
  intro conditions data h
  induction conditions with
  | nil => rfl
  | cons c rest ih =>
    obtain ⟨b, hb⟩ := h c (List.mem_cons_self _ _)
    have hrest := ih (fun c' hc' => h c' (List.mem_cons_of_mem _ hc'))
    cases b with
    | false => simp [matchConditions, hb, List.all_cons, evalCondBool]
    | true => simp [matchConditions, hb, List.all_cons, evalCondBool, hrest]

/-- C5 witness: the conjunction theorem applied to the two example
predicates against data where both are well-formed. -/
theorem c5_witness :
    matchConditions ["FIELD LIKE '%invoice%'", "STATUS IN ('open', 'pending')"]
      [("FIELD", .vStr "Monthly Invoice #123"), ("STATUS", .vStr "open")] =
    .ok ((["FIELD LIKE '%invoice%'", "STATUS IN ('open', 'pending')"]).all
      (fun c => evalCondBool c
        [("FIELD", .vStr "Monthly Invoice #123"), ("STATUS", .vStr "open")])) := by
  apply c5_condition_matcher_semantics.2.2.2
  intro c hc
  rcases List.mem_cons.mp hc with rfl | hc2
  · exact ⟨true, rfl⟩
  rcases List.mem_cons.mp hc2 with rfl | hc3
  · exact ⟨true, rfl⟩
  exact absurd hc3 (List.not_mem_nil _)

/-- C7: a finished `WorkflowExecution` saved to the history store and
re-read by its execution id through `get_workflow_execution` reproduces
the same status, the same number of step results, and the same per-step
success flags.  (The hypothesis restricts to the durable-store path: the
id is not in the in-memory table, so the read goes through the serialized
database row.) -/
theorem c7_history_roundtrip :
    ∀ (st : EngineState) (e : WorkflowExecution),
      getKey st.executions e.execution_id = none →
      ∃ es : List (String × Value),
        get_workflow_execution (save_execution st e) e.execution_id =
          .vDict es ∧
        dictGet es "status" = some (.vStr e.status) ∧
        ∃ l : List Value,
          dictGet es "steps_completed" = some (.vList l) ∧
          l.length = e.steps_completed.length ∧
          l.map (fun s => match s with
            | .vDict fs => dictGet fs "success"
            | _ => none) =
            e.steps_completed.map (fun r => some (.vBool r.success)) := by
  intro st e h
  refine ⟨[("execution_id", .vStr e.execution_id),
          ("workflow_name", .vStr e.workflow_name),
          ("trigger_event", .vStr e.trigger_event),
          ("trigger_data", .vDict e.trigger_data),
          ("status", .vStr e.status),
          ("started_at", .vStr e.started_at),
          ("completed_at", match e.completed_at with
            | some c => .vStr c | none => .vNone),
          ("steps_completed", .vList (e.steps_completed.map asdictStep)),
          ("created_at", .vStr "")], ?_, ?_, ?_⟩
  · unfold get_workflow_execution
    rw [show (save_execution st e).executions = st.executions from rfl, h]
    rw [show (save_execution st e).db = setKey st.db e.execution_id _ from rfl,
      getKey_setKey]
  · simp [dictGet]
  · refine ⟨e.steps_completed.map asdictStep, by simp [dictGet], by simp, ?_⟩
    rw [List.map_map]
    apply List.map_congr_left
    intro r _
    rfl

/-- C7 witness: the round trip at a concrete two-step execution. -/
theorem c7_witness :
    ∃ es : List (String × Value),
      get_workflow_execution
        (save_execution EngineState.empty
          { workflow_name := "wf", trigger_event := "evt"
            trigger_data := [("a", .vStr "b")], execution_id := "wf_x"
            status := "completed"
            steps_completed :=
              [{ success := true, step_name := "s1", tool_name := "workflow_log"
                 result := .vNone, error := none, timestamp := "ts" },
               { success := false, step_name := "s2", tool_name := "bogus"
                 result := .vNone, error := some "err", timestamp := "ts" }]
            started_at := "st", completed_at := some "ct" }) "wf_x" =
        .vDict es ∧
      dictGet es "status" = some (.vStr "completed") ∧
      ∃ l : List Value,
        dictGet es "steps_completed" = some (.vList l) ∧
        l.length = 2 ∧
        l.map (fun s => match s with
          | .vDict fs => dictGet fs "success"
          | _ => none) =
          [some (.vBool true), some (.vBool false)] :=
  c7_history_roundtrip EngineState.empty _ rfl

theorem runSteps_names_sublist (now : PyDateTime) (steps : List Step) :
    ∀ ctx, ((runSteps now steps ctx).1.map
      (fun r => r.step_name)).Sublist (steps.map (fun s => s.name)) := by
  induction steps with
  | nil => intro ctx; simp [runSteps]
  | cons step rest ih =>
    intro ctx
    cases h : matchConditions step.conditions ctx with
    | error e => simp [runSteps, h]
    | ok b =>
      cases b with
      | false =>
        simp only [runSteps, h, List.map_cons]
        exact (ih ctx).cons _
      | true =>
        cases ht : execute_tool step.tool step.params ctx with
        | ok result =>
          simp only [runSteps, h, ht, List.map_cons]
          exact (ih _).cons₂ _
        | error e =>
          simp only [runSteps, h, ht, List.map_cons]
          exact (ih ctx).cons₂ _

/-- C8: a step whose (non-empty) condition list evaluates to false against
the current context produces no StepResult — the loop just moves on to the
next declared step — and consequently every StepResult of a run names a
step of the executed WorkflowDefinition. -/
theorem c8_skipped_steps_unrecorded :
    (∀ (now : PyDateTime) (step : Step) (rest : List Step)
       (ctx : List (String × Value)),
      step.conditions ≠ [] →
      matchConditions step.conditions ctx = .ok false →
      runSteps now (step :: rest) ctx = runSteps now rest ctx) ∧
    (∀ (now : PyDateTime) (steps : List Step) (ctx : List (String × Value)),
      ((runSteps now steps ctx).1.map
        (fun r => r.step_name)).Sublist (steps.map (fun s => s.name))) ∧
    (∀ (workflows : List (String × WorkflowDef)) (st : EngineState)
       (name evt : String) (data : List (String × Value)) (t : PyDateTime)
       (wf : WorkflowDef),
      getKey workflows name = some wf →
      ∀ r ∈ (execute_workflow workflows st name evt data t).1.steps_completed,
        ∃ s ∈ wf.steps, r.step_name = s.name) := by
  refine ⟨?_, ?_, ?_⟩
  · intro now step rest ctx _hne hfalse
    simp [runSteps, hfalse]
  · intro now steps ctx
    exact runSteps_names_sublist now steps ctx
  · intro workflows st name evt data t wf hwf r hr
    have key : (execute_workflow workflows st name evt data t).1.steps_completed
        = (runSteps t wf.steps (initCtx data)).1 := by
      unfold execute_workflow
      rw [hwf]
      rcases hrun : runSteps t wf.steps (initCtx data) with ⟨res, ctxF, err⟩
      cases err <;> simp [hrun]
    rw [key] at hr
    have hmem : r.step_name ∈
        (runSteps t wf.steps (initCtx data)).1.map (fun r => r.step_name) :=
      List.mem_map_of_mem _ hr
    have hsub := (runSteps_names_sublist t wf.steps (initCtx data)).subset hmem
    rcases List.mem_map.mp hsub with ⟨s, hs, hname⟩
    exact ⟨s, hs, hname.symm⟩

/-- C8 witness: a concrete first step whose condition evaluates false is
skipped without a StepResult. -/
theorem c8_witness :
    runSteps ⟨2025, 3, 27, 12, 0, 0⟩
      [⟨"a", "workflow_log", [], ["X LIKE 'q'"]⟩,
       ⟨"b", "workflow_log", [], []⟩] (initCtx []) =
    runSteps ⟨2025, 3, 27, 12, 0, 0⟩
      [⟨"b", "workflow_log", [], []⟩] (initCtx []) :=
  c8_skipped_steps_unrecorded.1 ⟨2025, 3, 27, 12, 0, 0⟩
    ⟨"a", "workflow_log", [], ["X LIKE 'q'"]⟩
    [⟨"b", "workflow_log", [], []⟩] (initCtx []) (by decide) rfl

/-- C1: in a 3-step workflow whose middle step's tool invocation raises
(e.g. an unrecognized tool namespace) while the first and third tools
succeed, `execute_workflow` appends 3 StepResults — the middle one
`success = False` carrying the error message, the third still attempted
and `success = True` — and the overall run status is `"completed"`: a
single step's error never escalates to fail the run. -/
theorem c1_middle_step_failure_tolerated :
    ∀ (workflows : List (String × WorkflowDef)) (st : EngineState)
      (name evt : String) (tdata : List (String × Value)) (now : PyDateTime)
      (wname : String) (s1 s2 s3 : Step) (r1 r3 : Value) (msg : String),
      getKey workflows name = some ⟨wname, [s1, s2, s3]⟩ →
      s1.conditions = [] → s2.conditions = [] → s3.conditions = [] →
      execute_tool s1.tool s1.params (initCtx tdata) = .ok r1 →
      execute_tool s2.tool s2.params
        (ctxAddResult (initCtx tdata) s1.name r1) = .error msg →
      execute_tool s3.tool s3.params
        (ctxAddResult (initCtx tdata) s1.name r1) = .ok r3 →
      (execute_workflow workflows st name evt tdata now).1.steps_completed.length
          = 3 ∧
      (execute_workflow workflows st name evt tdata now).1.steps_completed.map
          (fun r => r.success) = [true, false, true] ∧
      (execute_workflow workflows st name evt tdata now).1.steps_completed.map
          (fun r => r.error) = [none, some msg, none] ∧
      (execute_workflow workflows st name evt tdata now).1.status
          = "completed" := by
  intro workflows st name evt tdata now wname s1 s2 s3 r1 r3 msg
    hwf hc1 hc2 hc3 h1 h2 h3
  have hrun : runSteps now [s1, s2, s3] (initCtx tdata) =
      ([{ success := true, step_name := s1.name, tool_name := s1.tool
          result := r1, error := none, timestamp := isoformat now },
        { success := false, step_name := s2.name, tool_name := s2.tool
          result := .vNone, error := some msg, timestamp := isoformat now },
        { success := true, step_name := s3.name, tool_name := s3.tool
          result := r3, error := none, timestamp := isoformat now }],
       ctxAddResult (ctxAddResult (initCtx tdata) s1.name r1) s3.name r3,
       none) := by
    simp [runSteps, hc1, hc2, hc3, matchConditions, h1, h2, h3]
  unfold execute_workflow
  rw [hwf]
  simp [hrun]

/-- C1 witness: the concrete 3-step workflow `workflow_log` →
`bogus_tool` (unknown namespace, raises) → `workflow_log`. -/
theorem c1_witness :
    (execute_workflow
        [("wf", ⟨"wf", [⟨"a", "workflow_log", [], []⟩,
                        ⟨"b", "bogus_tool", [], []⟩,
                        ⟨"c", "workflow_log", [], []⟩]⟩)]
        EngineState.empty "wf" "evt" [] ⟨2025, 3, 27, 12, 0, 0⟩).1.steps_completed.length = 3 ∧
    (execute_workflow
        [("wf", ⟨"wf", [⟨"a", "workflow_log", [], []⟩,
                        ⟨"b", "bogus_tool", [], []⟩,
                        ⟨"c", "workflow_log", [], []⟩]⟩)]
        EngineState.empty "wf" "evt" [] ⟨2025, 3, 27, 12, 0, 0⟩).1.steps_completed.map
      (fun r => r.success) = [true, false, true] ∧
    (execute_workflow
        [("wf", ⟨"wf", [⟨"a", "workflow_log", [], []⟩,
                        ⟨"b", "bogus_tool", [], []⟩,
                        ⟨"c", "workflow_log", [], []⟩]⟩)]
        EngineState.empty "wf" "evt" [] ⟨2025, 3, 27, 12, 0, 0⟩).1.steps_completed.map
      (fun r => r.error) = [none, some "Unknown tool: bogus_tool", none] ∧
    (execute_workflow
        [("wf", ⟨"wf", [⟨"a", "workflow_log", [], []⟩,
                        ⟨"b", "bogus_tool", [], []⟩,
                        ⟨"c", "workflow_log", [], []⟩]⟩)]
        EngineState.empty "wf" "evt" [] ⟨2025, 3, 27, 12, 0, 0⟩).1.status = "completed" :=
  c1_middle_step_failure_tolerated _ EngineState.empty "wf" "evt" []
    ⟨2025, 3, 27, 12, 0, 0⟩ "wf"
    ⟨"a", "workflow_log", [], []⟩ ⟨"b", "bogus_tool", [], []⟩
    ⟨"c", "workflow_log", [], []⟩
    (.vDict [("logged", .vBool true),
             ("message", .vStr "Workflow completion logged")])
    (.vDict [("logged", .vBool true),
             ("message", .vStr "Workflow completion logged")])
    "Unknown tool: bogus_tool" rfl rfl rfl rfl rfl rfl rfl

/-! ### C9: execution-id uniqueness -/

theorem toDigitsCore_length_ge :
    ∀ (f n : Nat) (acc : List Char) (k : Nat), n < f → 10 ^ k ≤ n →
      k + 1 + acc.length ≤ (Nat.toDigitsCore 10 f n acc).length := by
  intro f
  induction f with
  | zero => intro n acc k hf _; omega
  | succ f ih =>
    intro n acc k hf hk
    have hn : 0 < n := lt_of_lt_of_le (Nat.pos_pow_of_pos k (by norm_num)) hk
    by_cases h0 : n / 10 = 0
    · have hn10 : n < 10 := (Nat.div_eq_zero_iff (by norm_num)).mp h0
      have hk0 : k = 0 := by
        by_contra hne
        have h10 : (10 : Nat) ^ 1 ≤ 10 ^ k :=
          Nat.pow_le_pow_right (by norm_num) (by omega)
        simp at h10
        omega
      subst hk0
      simp [Nat.toDigitsCore, h0]
      omega
    · have hlt : n / 10 < f := by
        have hd : n / 10 < n := Nat.div_lt_self hn (by norm_num)
        omega
      cases k with
      | zero =>
        have h1 : 10 ^ 0 ≤ n / 10 := by
          simpa using Nat.pos_of_ne_zero h0
        have := ih (n / 10) (Nat.digitChar (n % 10) :: acc) 0 hlt h1
        simp only [Nat.toDigitsCore, h0, if_false]
        simp at this ⊢
        omega
      | succ k' =>
        have h1 : 10 ^ k' ≤ n / 10 := by
          rw [Nat.le_div_iff_mul_le (by norm_num : 0 < 10)]
          calc 10 ^ k' * 10 = 10 ^ (k' + 1) := (pow_succ 10 k').symm
            _ ≤ n := hk
        have := ih (n / 10) (Nat.digitChar (n % 10) :: acc) k' hlt h1
        simp only [Nat.toDigitsCore, h0, if_false]
        simp at this ⊢
        omega

theorem repr_length_ge (n k : Nat) (h : 10 ^ k ≤ n) :
    k + 1 ≤ (Nat.repr n).length := by
  have := toDigitsCore_length_ge (n + 1) n [] k (Nat.lt_succ_self n) h
  simpa [Nat.repr, Nat.toDigits, List.length_asString] using this

theorem repr_length_eq (n k : Nat) (hlo : 10 ^ k ≤ n) (hhi : n < 10 ^ (k + 1)) :
    (Nat.repr n).length = k + 1 :=
  le_antisymm (Nat.repr_length n (k + 1) (by omega) hhi) (repr_length_ge n k hlo)

theorem pad2_length (n : Nat) (h : n < 100) : (pad2 n).length = 2 := by
  unfold pad2
  split
  · rename_i h10
    have h1 : (Nat.repr n).length = 1 := by
      rcases Nat.eq_zero_or_pos n with rfl | hp
      · rfl
      · exact repr_length_eq n 0 (by simpa) (by simpa)
    rw [String.length_append, h1]
    rfl
  · rename_i h10
    exact repr_length_eq n 1 (by simpa using Nat.le_of_not_lt h10)
      (by simpa using h)

theorem pad4_length (n : Nat) (h : n < 10000) : (pad4 n).length = 4 := by
  unfold pad4
  split
  · rename_i h10
    have h1 : (Nat.repr n).length = 1 := by
      rcases Nat.eq_zero_or_pos n with rfl | hp
      · rfl
      · exact repr_length_eq n 0 (by simpa) (by simpa)
    rw [String.length_append, h1]
    rfl
  · split
    · rename_i h10 h100
      have h1 : (Nat.repr n).length = 2 :=
        repr_length_eq n 1 (by simpa using Nat.le_of_not_lt h10)
          (by simpa using h100)
      rw [String.length_append, h1]
      rfl
    · split
      · rename_i h10 h100 h1000
        have h1 : (Nat.repr n).length = 3 :=
          repr_length_eq n 2 (by simpa using Nat.le_of_not_lt h100)
            (by simpa using h1000)
        rw [String.length_append, h1]
        rfl
      · rename_i h10 h100 h1000
        exact repr_length_eq n 3 (by simpa using Nat.le_of_not_lt h1000)
          (by simpa using h)

/-- Timestamps `datetime.now()` can actually produce (four-digit year,
in-range components). -/
def validTime (t : PyDateTime) : Prop :=
  t.year < 10000 ∧ t.month < 100 ∧ t.day < 100 ∧ t.hour < 100 ∧
  t.minute < 100 ∧ t.second < 100

theorem strftimeId_length (t : PyDateTime) (h : validTime t) :
    (strftimeId t).length = 15 := by
  obtain ⟨hy, hmo, hd, hh, hmi, hs⟩ := h
  unfold strftimeId
  rw [String.length_append, String.length_append, String.length_append,
    String.length_append, String.length_append, String.length_append,
    pad4_length _ hy, pad2_length _ hmo, pad2_length _ hd, pad2_length _ hh,
    pad2_length _ hmi, pad2_length _ hs]
  rfl

/-- C9 counterexample: two distinct runs (same workflow name, different
trigger events, triggered within the same wall-clock second) receive the
SAME execution id, refuting "for any two distinct runs the generated
execution ids differ". -/
theorem c9_counterexample :
    (execute_workflow [("wf", ⟨"wf", []⟩)] EngineState.empty "wf" "evtA" []
        ⟨2025, 3, 27, 12, 0, 0⟩).1.execution_id =
      (execute_workflow [("wf", ⟨"wf", []⟩)] EngineState.empty "wf" "evtB" []
        ⟨2025, 3, 27, 12, 0, 0⟩).1.execution_id ∧
    "evtA" ≠ "evtB" := ⟨rfl, by decide⟩

/-- C9 (amended): the execution id is workflow name + `"_"` + the
second-resolution timestamp, so two runs' ids are equal exactly when their
workflow names are equal and their trigger instants format to the same
`%Y%m%d_%H%M%S` string: runs in different seconds (or of different names)
get distinct ids, but same-name runs within one second collide. -/
theorem c9_execution_id_characterization (n1 n2 : String) (t1 t2 : PyDateTime)
    (h1 : validTime t1) (h2 : validTime t2) :
    executionId n1 t1 = executionId n2 t2 ↔
      (n1 = n2 ∧ strftimeId t1 = strftimeId t2) := by
  constructor
  · intro h
    have hlen : (strftimeId t1).data.length = (strftimeId t2).data.length := by
      have := strftimeId_length t1 h1
      have := strftimeId_length t2 h2
      simp only [String.length] at *
      omega
    have hdata : (n1.data ++ "_".data) ++ (strftimeId t1).data =
        (n2.data ++ "_".data) ++ (strftimeId t2).data := by
      have hd := congrArg String.data h
      simpa [executionId, String.data_append, List.append_assoc] using hd
    obtain ⟨hpre, hsuf⟩ := List.append_inj' hdata hlen
    refine ⟨?_, String.ext hsuf⟩
    obtain ⟨hn, -⟩ := List.append_inj' hpre rfl
    exact String.ext hn
  · rintro ⟨rfl, hf⟩
    unfold executionId
    rw [hf]

/-- C9 witness: the characterization at two concrete instants one second
apart (distinct ids) for the same workflow name. -/
theorem c9_witness :
    executionId "wf" ⟨2025, 3, 27, 12, 0, 0⟩ =
        executionId "wf" ⟨2025, 3, 27, 12, 0, 1⟩ ↔
      ("wf" = "wf" ∧ strftimeId ⟨2025, 3, 27, 12, 0, 0⟩ =
        strftimeId ⟨2025, 3, 27, 12, 0, 1⟩) :=
  c9_execution_id_characterization "wf" "wf" _ _
    ⟨by norm_num, by norm_num, by norm_num, by norm_num, by norm_num, by norm_num⟩
    ⟨by norm_num, by norm_num, by norm_num, by norm_num, by norm_num, by norm_num⟩

end Workflow
